import Mathlib

/-!
Shallow embedding of the Linux usbdevfs transport backend
(`src/mtp/backend/linux/usb/Device.cpp` of android-file-transfer-linux),
together with theorems settling the specification claims about it.

Kernel-level urb identities (the `&urb->KernelUrb` keys of the `_urbs`
map) are modelled as natural numbers; byte buffers as `List Nat`;
the outcome of each raw `ioctl` system call is an input of the model
(`none` = success, `some e` = failure with errno `e`), since the kernel
is an external collaborator.
-/

namespace AftlUsb

/-! ## Error taxonomy (Exception.h, TimeoutException.h, DeviceBusyException.h,
DeviceNotFoundException.h) -/

inductive TransportError where
  | busy
  | notFound
  | timeout
  | ioFailure
deriving DecidableEq, Repr

/-- Linux errno value for "resource temporarily unavailable". -/
def EAGAIN : Nat := 11

/-- Linux errno value for "device or resource busy". -/
def EBUSY : Nat := 16

/-- Linux errno value for "no such device". -/
def ENODEV : Nat := 19

/-- The `IOCTL` macro (Device.cpp:35-47): a raw ioctl outcome is translated
into a typed exception — `EBUSY` to `DeviceBusyException`, `ENODEV` to
`DeviceNotFoundException`, anything else to a generic `posix::Exception`. -/
def ioctlThrow (out : Option Nat) : Except TransportError Unit :=
  match out with
  | none => Except.ok ()
  | some e =>
      Except.error (if e = EBUSY then TransportError.busy
        else if e = ENODEV then TransportError.notFound
        else TransportError.ioFailure)

/-! ## Urb construction (Device.cpp:104-118) -/

/-- The fixed ceiling on the transfer buffer (Device.cpp:106). -/
def MaxBufferSize : Nat := 4096

/-- The buffer length computed once in the `Urb` constructor (Device.cpp:112):
`std::max(PacketSize, MaxBufferSize / PacketSize * PacketSize)` with C++
truncating integer division. -/
def transferSize (packetSize : Nat) : Nat :=
  max packetSize (MaxBufferSize / packetSize * packetSize)

/-! ## Submit and the pending table (Device.cpp:221-260, 178-210, 128-135) -/

/-- One outcome of a `Reap(timeout)` call inside Submit's loop
(Device.cpp:178-210): either one completed kernel urb identity is returned,
or `Reap` throws `TimeoutException` (reap got `EAGAIN`), or it throws a
generic exception (poll/gettimeofday/reap failure). -/
inductive ReapEv where
  | completed (id : Nat)
  | timeout
  | fail
deriving DecidableEq, Repr

inductive SubmitResult where
  | ok
  | timedOut
  | ioError
deriving DecidableEq, Repr

/-- `std::map::insert` on the `_urbs` table (Device.cpp:226): inserts the key
only when it is not already present. The table is modelled by its key list. -/
def insertId (x : Nat) (t : List Nat) : List Nat :=
  if x ∈ t then t else x :: t

/-- The reap loop of `Device::Submit` (Device.cpp:230-247), driven by the
sequence of `Reap` outcomes. State: the pending table `tbl` (keys of `_urbs`)
and the diagnostic log `lg`. A completion whose identity is unknown is logged
and dropped; a known one is erased from the table, then the loop returns
success if it is this call's own urb (`my`) and silently continues otherwise.
A `Reap` timeout or failure ends the loop with the corresponding result
(the exception handlers at Device.cpp:249-259). `none` means the outcome
trace was exhausted with the loop still running. -/
def submitLoop (my : Nat) : List ReapEv → List Nat → List String →
    Option (SubmitResult × List Nat × List String)
  | [], _, _ => none
  | ReapEv.completed id :: rest, tbl, lg =>
      if id ∈ tbl then
        if id = my then some (SubmitResult.ok, tbl.erase id, lg)
        else submitLoop my rest (tbl.erase id) lg
      else submitLoop my rest tbl (lg ++ ["got unknown urb"])
  | ReapEv.timeout :: _, tbl, lg => some (SubmitResult.timedOut, tbl, lg)
  | ReapEv.fail :: _, tbl, lg =>
      some (SubmitResult.ioError, tbl, lg ++ ["error while submitting urb"])

/-- `Device::Urb::Discard` (Device.cpp:128-135): a failing
`USBDEVFS_DISCARDURB` ioctl is reported via `perror` and swallowed. -/
def discardLog (discardFails : Bool) : List String :=
  if discardFails then ["ioctl(USBDEVFS_DISCARDURB)"] else []

structure SubmitOut where
  result : SubmitResult
  table : List Nat
  log : List String
  discardAttempts : Nat
deriving DecidableEq, Repr

/-- `Device::Submit` (Device.cpp:221-260) after the initial
`USBDEVFS_SUBMITURB` ioctl has succeeded: the urb's kernel identity `my` is
registered in the pending table, then the reap loop runs over the outcome
trace. On success the call returns with no discard; when the loop ends in
timeout or failure the urb is discarded exactly once (Device.cpp:249-259)
and the original exception is rethrown; a discard failure only adds a log
line (`discardFails` is the outcome of that ioctl). -/
def submit (my : Nat) (tbl0 : List Nat) (trace : List ReapEv)
    (discardFails : Bool) : Option SubmitOut :=
  match submitLoop my trace (insertId my tbl0) [] with
  | none => none
  | some (SubmitResult.ok, t, lg) => some ⟨SubmitResult.ok, t, lg, 0⟩
  | some (SubmitResult.timedOut, t, lg) =>
      some ⟨SubmitResult.timedOut, t, lg ++ discardLog discardFails, 1⟩
  | some (SubmitResult.ioError, t, lg) =>
      some ⟨SubmitResult.ioError, t, lg ++ discardLog discardFails, 1⟩

/-! ## WriteBulk (Device.cpp:262-284) -/

/-- `Device::WriteBulk`: the do-while loop pulls up to `size` bytes from the
input stream into the urb (`Urb::Send`, Device.cpp:137-143), sets the
zero-packet flag to `r != transferSize` when `USBDEVFS_CAP_ZERO_PACKET` is
available, submits the chunk, and repeats while a full chunk was read.
Result: the submitted chunks in order, each with the state of the
zero-packet flag at its submission. (The source loop does not terminate
when `size = 0`; that case is unreachable, `transferSize` being positive,
and the model stops after one chunk there.) -/
def writeBulk (size : Nat) (capZero : Bool) (input : List Nat) :
    List (List Nat × Bool) :=
  if h : (input.take size).length = size ∧ size ≠ 0 then
    (input.take size, capZero && decide ((input.take size).length ≠ size)) ::
      writeBulk size capZero (input.drop size)
  else
    [(input.take size, capZero && decide ((input.take size).length ≠ size))]
termination_by input.length
decreasing_by
  have h3 : (input.take size).length = min size input.length :=
    List.length_take size input
  simp only [List.length_drop]
  omega

/-- The first `k` chunks of `size` bytes of a list, in order (the reference
splitting used to state what `writeBulk` submits). -/
def fullChunks (size : Nat) : Nat → List Nat → List (List Nat)
  | 0, _ => []
  | k + 1, l => l.take size :: fullChunks size k (l.drop size)

/-! ## ReadBulk (Device.cpp:286-305) -/

/-- `Device::ReadBulk`: the do-while loop submits the urb, copies the
device-reported `actual_length` bytes into the output stream
(`Urb::Recv`, Device.cpp:153-157), and repeats while a full chunk was
received. Input: the chunks the device delivers, each the `actual_length`
bytes of one completed urb. Result: all bytes written to the output sink,
or `none` when the chunk supply is exhausted with the loop still running. -/
def readBulk (size : Nat) : List (List Nat) → Option (List Nat)
  | [] => none
  | c :: rest =>
      if c.length = size then (readBulk size rest).map (fun t => c ++ t)
      else some c

/-! ## ReadControl (Device.cpp:325-346) -/

/-- Outcome of the raw `USBDEVFS_CONTROL` ioctl: `ok r` is a nonnegative
return (bytes transferred), `err e` a negative return with errno `e`. -/
inductive CtrlOutcome where
  | ok (transferred : Nat)
  | err (errno : Nat)
deriving DecidableEq, Repr

/-- `std::vector::resize` on a byte buffer: truncates to `n` elements, or
pads with zero bytes when `n` exceeds the current length. -/
def listResize (l : List Nat) (n : Nat) : List Nat :=
  l.take n ++ List.replicate (n - l.length) 0

/-- `Device::ReadControl` (Device.cpp:325-346), as a function of the control
ioctl's outcome. On a nonnegative return `r` the caller's buffer is resized
to `r` and the call succeeds; on failure with `EAGAIN` it throws
`TimeoutException`, on any other failure a generic `posix::Exception`, the
buffer untouched (first component: the call's result; second: the caller's
buffer after the call, `data` being passed by reference). -/
def readControl (data : List Nat) (out : CtrlOutcome) :
    Except TransportError Unit × List Nat :=
  match out with
  | CtrlOutcome.ok r => (Except.ok (), listResize data r)
  | CtrlOutcome.err e =>
      (Except.error (if e = EAGAIN then TransportError.timeout
        else TransportError.ioFailure), data)

/-! ## ClearHalt and InterfaceToken release (Device.cpp:212-218, 57-60) -/

/-- `Device::ClearHalt`: the `USBDEVFS_CLEAR_HALT` `IOCTL` is wrapped in a
try/catch over `std::exception` — every exception the `IOCTL` macro can
throw is caught and turned into a log line (Device.cpp:212-218). Result:
the call's outcome together with the log it produced. -/
def clearHalt (out : Option Nat) : Except TransportError Unit × List String :=
  match ioctlThrow out with
  | Except.ok () => (Except.ok (), [])
  | Except.error _ => (Except.ok (), ["clearing halt status for ep"])

/-- `InterfaceToken::~InterfaceToken` (Device.cpp:57-60): the
`USBDEVFS_RELEASEINTERFACE` ioctl is issued raw and its return value is
ignored entirely, so the destructor never fails whatever the outcome. -/
def interfaceRelease (out : Option Nat) : Except TransportError Unit :=
  Except.ok ()

/-! ## TransactionType (Device.cpp:307-323) -/

/-- Modelled from the spec: the `EndpointType` enumeration (its header is
not under src/) is a closed set of four tags — Control, Isochronous, Bulk,
Interrupt — carried by an integral underlying type, encoded here as
0, 1, 2, 3 in declaration order; any other integral value is outside the
enumeration. -/
def EndpointType_Control : Nat := 0

def EndpointType_Isochronous : Nat := 1

def EndpointType_Bulk : Nat := 2

def EndpointType_Interrupt : Nat := 3

/-- Modelled from the spec: the usbdevfs transfer-type tags of the kernel
header `linux/usbdevice_fs.h` (not under src/), with their kernel values. -/
def USBDEVFS_URB_TYPE_ISO : Nat := 0

def USBDEVFS_URB_TYPE_INTERRUPT : Nat := 1

def USBDEVFS_URB_TYPE_CONTROL : Nat := 2

def USBDEVFS_URB_TYPE_BULK : Nat := 3

/-- `Device::TransactionType` (Device.cpp:307-323): the switch over the
endpoint's transfer type; the default branch throws `std::runtime_error`
("invalid endpoint type"), modelled as `none` — a fatal invalid-argument
failure outside the transport error taxonomy. -/
def transactionType (t : Nat) : Option Nat :=
  if t = EndpointType_Control then some USBDEVFS_URB_TYPE_CONTROL
  else if t = EndpointType_Isochronous then some USBDEVFS_URB_TYPE_ISO
  else if t = EndpointType_Bulk then some USBDEVFS_URB_TYPE_BULK
  else if t = EndpointType_Interrupt then some USBDEVFS_URB_TYPE_INTERRUPT
  else none

/-! ## Theorems -/

/-- Claim C3, counterexample: at packet size 4097 the computed buffer size is
4097, strictly above the fixed ceiling `MaxBufferSize = 4096`, so it is not
a multiple of the packet size that does not exceed the ceiling. -/
theorem transferSize_exceeds_ceiling_cex :
    transferSize 4097 = 4097 ∧ MaxBufferSize < transferSize 4097 := by decide

/-- Claim C3 (amended): for every endpoint whose maximum packet size `p`
satisfies `0 < p ≤ MaxBufferSize`, the buffer size computed at Urb
construction is a multiple of `p`, at least `p`, at most `MaxBufferSize`,
and at least every multiple of `p` not exceeding `MaxBufferSize`; for
`p > MaxBufferSize` the computed size is `p` itself, above the ceiling. -/
theorem transferSize_bounded_multiple (p : Nat) (h1 : 0 < p)
    (h2 : p ≤ MaxBufferSize) :
    p ∣ transferSize p ∧ p ≤ transferSize p ∧ transferSize p ≤ MaxBufferSize ∧
      ∀ m, p ∣ m → m ≤ MaxBufferSize → m ≤ transferSize p := by
  have hq : 1 ≤ MaxBufferSize / p := (Nat.one_le_div_iff h1).2 h2
  have hle : p ≤ MaxBufferSize / p * p := by
    calc p = 1 * p := (one_mul p).symm
    _ ≤ MaxBufferSize / p * p := Nat.mul_le_mul_right p hq
  have hmax : transferSize p = MaxBufferSize / p * p := max_eq_right hle
  refine ⟨?_, ?_, ?_, ?_⟩
  · rw [hmax]; exact dvd_mul_left p (MaxBufferSize / p)
  · rw [hmax]; exact hle
  · rw [hmax]; exact Nat.div_mul_le_self MaxBufferSize p
  · intro m hdvd hm
    obtain ⟨q, rfl⟩ := hdvd
    rw [hmax]
    have hq2 : q ≤ MaxBufferSize / p :=
      (Nat.le_div_iff_mul_le h1).2 (by rw [mul_comm]; exact hm)
    calc p * q = q * p := mul_comm p q
    _ ≤ MaxBufferSize / p * p := Nat.mul_le_mul_right p hq2

/-- Claim C3, witness at packet size 100 (buffer size 4000). -/
theorem transferSize_bounded_multiple_witness :
    100 ∣ transferSize 100 ∧ 100 ≤ transferSize 100 ∧
      transferSize 100 ≤ MaxBufferSize ∧
      ∀ m, 100 ∣ m → m ≤ MaxBufferSize → m ≤ transferSize 100 :=
  transferSize_bounded_multiple 100 (by decide) (by decide)

/-- Claim C2, counterexample: with the zero-packet capability disabled and a
2-byte input at chunk size 2 (an exact multiple), WriteBulk still submits a
terminating zero-length chunk — two submissions, not the single full chunk
the claim allows. -/
theorem writeBulk_disabled_still_terminates_cex :
    writeBulk 2 false [7, 8] = [([7, 8], false), ([], false)] ∧
      ¬ (writeBulk 2 false [7, 8]).length = 1 := by
  simp [writeBulk]

/-- Claim C2 (amended): on an input whose length is exactly `k` chunks,
WriteBulk submits exactly the `k` full chunks of the input in order followed
by one terminating zero-length chunk regardless of the zero-packet
capability; the capability only controls whether the terminating chunk
carries the zero-packet flag, the full chunks never carrying it. -/
theorem writeBulk_exact_multiple (size k : Nat) (capZero : Bool)
    (input : List Nat) (hs : 0 < size) (hlen : input.length = k * size) :
    writeBulk size capZero input =
      (fullChunks size k input).map (fun c => (c, false)) ++ [([], capZero)] := by
  induction k generalizing input with
  | zero =>
    have h0 : input = [] := List.eq_nil_of_length_eq_zero (by omega)
    subst h0
    rw [writeBulk]
    simp [fullChunks, Nat.ne_of_lt hs]
  | succ k ih =>
    have hsize : size ≤ input.length := by
      have : 1 * size ≤ (k + 1) * size := Nat.mul_le_mul_right size (by omega)
      omega
    have htake : (input.take size).length = size := by
      rw [List.length_take]; omega
    rw [writeBulk]
    rw [dif_pos ⟨htake, by omega⟩]
    have hdrop : (input.drop size).length = k * size := by
      rw [List.length_drop, hlen]; ring_nf; omega
    rw [ih (input.drop size) hdrop]
    simp [fullChunks, htake]

/-- Claim C2, witness: one full 2-byte chunk plus the flagged zero-length
terminator when the capability is enabled. -/
theorem writeBulk_exact_multiple_witness :
    writeBulk 2 true [7, 8] =
      (fullChunks 2 1 [7, 8]).map (fun c => (c, false)) ++ [([], true)] :=
  writeBulk_exact_multiple 2 1 true [7, 8] (by decide) (by decide)

/-- Claim C6: ReadBulk stops with the first chunk strictly shorter than the
transfer size — the chunks a device would deliver afterwards (`rest`) are
never consumed — and the output sink receives exactly the concatenation, in
order, of the received chunks' bytes. -/
theorem readBulk_concat (size : Nat) (full : List (List Nat)) (s : List Nat)
    (rest : List (List Nat)) (hfull : ∀ c ∈ full, c.length = size)
    (hs : s.length < size) :
    readBulk size (full ++ s :: rest) = some (full.flatten ++ s) := by
  induction full with
  | nil => simp [readBulk, Nat.ne_of_lt hs]
  | cons c full ih =>
    have hc : c.length = size := hfull c (List.mem_cons_self c full)
    have ih2 := ih fun x hx => hfull x (List.mem_cons_of_mem c hx)
    simp [readBulk, hc, ih2]

/-- Claim C6, witness: two full chunks never read past the first short one. -/
theorem readBulk_concat_witness :
    readBulk 2 ([[1, 2]] ++ [3] :: [[9, 9]]) = some ([[1, 2]].flatten ++ [3]) :=
  readBulk_concat 2 [[1, 2]] [3] [[9, 9]] (by decide) (by decide)

theorem submitLoop_table_inv (my : Nat) (trace : List ReapEv) :
    ∀ tbl lg res t l, tbl.Nodup → my ∈ tbl →
      submitLoop my trace tbl lg = some (res, t, l) →
      t.Nodup ∧ (res = SubmitResult.ok → my ∉ t) ∧
        (res ≠ SubmitResult.ok → my ∈ t) := by
  induction trace with
  | nil =>
    intro tbl lg res t l _ _ h
    exact absurd h (by simp [submitLoop])
  | cons e rest ih =>
    intro tbl lg res t l hnd hmy h
    cases e with
    | completed id =>
      by_cases hid : id ∈ tbl
      · by_cases heq : id = my
        · subst heq
          rw [submitLoop, if_pos hid, if_pos rfl] at h
          obtain ⟨h1, h2, h3⟩ := by simpa using h
          subst h1; subst h2
          refine ⟨hnd.erase id, fun _ => ?_, fun hne => absurd rfl hne⟩
          rw [hnd.mem_erase_iff]
          exact fun hc => hc.1 rfl
        · rw [submitLoop, if_pos hid, if_neg heq] at h
          exact ih (tbl.erase id) lg res t l (hnd.erase id)
            ((List.mem_erase_of_ne (Ne.symm heq)).2 hmy) h
      · rw [submitLoop, if_neg hid] at h
        exact ih tbl (lg ++ ["got unknown urb"]) res t l hnd hmy h
    | timeout =>
      obtain ⟨h1, h2, h3⟩ := by simpa [submitLoop] using h
      subst h1; subst h2
      exact ⟨hnd, fun hc => SubmitResult.noConfusion hc, fun _ => hmy⟩
    | fail =>
      obtain ⟨h1, h2, h3⟩ := by simpa [submitLoop] using h
      subst h1; subst h2
      exact ⟨hnd, fun hc => SubmitResult.noConfusion hc, fun _ => hmy⟩

/-- Claim C1 (amended): once the kernel submission has succeeded, Submit
registers the urb's identity exactly once — the pending table stays
duplicate-free, so it never holds two entries for the urb — and after Submit
returns successfully the table contains no entry for that identity; but
after a return by Timeout or by any other reap failure the entry REMAINS in
the table (the exception handlers discard the urb without erasing it; the
entry is removed only when a later Submit call's loop reaps the discarded
urb's completion). -/
theorem submit_table_entry_after_return (my : Nat) (tbl0 : List Nat)
    (trace : List ReapEv) (df : Bool) (out : SubmitOut)
    (hnd : tbl0.Nodup) (hmy : my ∉ tbl0)
    (h : submit my tbl0 trace df = some out) :
    out.table.Nodup ∧ (out.result = SubmitResult.ok → my ∉ out.table) ∧
      (out.result ≠ SubmitResult.ok → my ∈ out.table) := by
  have hins : insertId my tbl0 = my :: tbl0 := by simp [insertId, hmy]
  have hnd1 : (insertId my tbl0).Nodup := by
    rw [hins]; exact List.nodup_cons.2 ⟨hmy, hnd⟩
  have hmem : my ∈ insertId my tbl0 := by
    rw [hins]; exact List.mem_cons_self my tbl0
  unfold submit at h
  cases hsl : submitLoop my trace (insertId my tbl0) [] with
  | none => rw [hsl] at h; cases h
  | some v =>
    obtain ⟨res, t, l⟩ := v
    have hinv := submitLoop_table_inv my trace (insertId my tbl0) [] res t l
      hnd1 hmem hsl
    rw [hsl] at h
    cases res with
    | ok =>
      have hout : (⟨SubmitResult.ok, t, l, 0⟩ : SubmitOut) = out :=
        Option.some.inj h
      subst hout
      exact ⟨hinv.1, fun _ => hinv.2.1 rfl, fun hne => absurd rfl hne⟩
    | timedOut =>
      have hout : (⟨SubmitResult.timedOut, t, l ++ discardLog df, 1⟩ :
          SubmitOut) = out := Option.some.inj h
      subst hout
      exact ⟨hinv.1, fun hc => SubmitResult.noConfusion hc,
        fun _ => hinv.2.2 fun hc => SubmitResult.noConfusion hc⟩
    | ioError =>
      have hout : (⟨SubmitResult.ioError, t, l ++ discardLog df, 1⟩ :
          SubmitOut) = out := Option.some.inj h
      subst hout
      exact ⟨hinv.1, fun hc => SubmitResult.noConfusion hc,
        fun _ => hinv.2.2 fun hc => SubmitResult.noConfusion hc⟩

/-- Claim C1, counterexample: a Submit call over a previously empty table
whose only reap outcome is a timeout returns by Timeout with its urb's
identity still present in the pending table — the table is not empty after
the failing return, contradicting the claim. -/
theorem submit_timeout_retains_entry_cex :
    (submit 0 [] [ReapEv.timeout] false).map SubmitOut.result =
        some SubmitResult.timedOut ∧
      (submit 0 [] [ReapEv.timeout] false).map SubmitOut.table = some [0] := by
  decide

/-- Claim C1, witness: a successful run (the own completion reaped at once)
ends with the identity gone from the table. -/
theorem submit_table_entry_after_return_witness :
    (⟨SubmitResult.ok, [], [], 0⟩ : SubmitOut).table.Nodup ∧
      ((⟨SubmitResult.ok, [], [], 0⟩ : SubmitOut).result = SubmitResult.ok →
        0 ∉ (⟨SubmitResult.ok, [], [], 0⟩ : SubmitOut).table) ∧
      ((⟨SubmitResult.ok, [], [], 0⟩ : SubmitOut).result ≠ SubmitResult.ok →
        0 ∈ (⟨SubmitResult.ok, [], [], 0⟩ : SubmitOut).table) :=
  submit_table_entry_after_return 0 [] [ReapEv.completed 0] false
    ⟨SubmitResult.ok, [], [], 0⟩ (by decide) (by decide) (by decide)

/-- Claim C4: one step of Submit's reap loop — a reaped completion whose
identity is not in the pending table is logged and dropped and the loop
continues on an unchanged table; one whose identity is in the table is
erased from it, after which the loop continues silently (log unchanged)
when it is another call's urb, and returns success when it is this call's
own urb. -/
theorem submitLoop_step_cases (my id : Nat) (rest : List ReapEv)
    (tbl : List Nat) (lg : List String) :
    (id ∉ tbl → submitLoop my (ReapEv.completed id :: rest) tbl lg =
        submitLoop my rest tbl (lg ++ ["got unknown urb"])) ∧
      (id ∈ tbl → id ≠ my →
        submitLoop my (ReapEv.completed id :: rest) tbl lg =
          submitLoop my rest (tbl.erase id) lg) ∧
      (id ∈ tbl → id = my →
        submitLoop my (ReapEv.completed id :: rest) tbl lg =
          some (SubmitResult.ok, tbl.erase id, lg)) := by
  refine ⟨fun hid => ?_, fun hid hne => ?_, fun hid heq => ?_⟩
  · rw [submitLoop, if_neg hid]
  · rw [submitLoop, if_pos hid, if_neg hne]
  · rw [submitLoop, if_pos hid, if_pos heq]

/-- Claim C4, witness: the three step cases at concrete inputs — unknown
identity 5 logged and dropped, known foreign identity 0 erased silently,
own identity 1 erased with success. -/
theorem submitLoop_step_cases_witness :
    submitLoop 1 [ReapEv.completed 5] [0, 1] [] =
        submitLoop 1 [] [0, 1] ([] ++ ["got unknown urb"]) ∧
      submitLoop 1 [ReapEv.completed 0] [0, 1] [] =
        submitLoop 1 [] (List.erase [0, 1] 0) [] ∧
      submitLoop 1 [ReapEv.completed 1] [0, 1] [] =
        some (SubmitResult.ok, List.erase [0, 1] 1, []) :=
  ⟨(submitLoop_step_cases 1 5 [] [0, 1] []).1 (by decide),
    (submitLoop_step_cases 1 0 [] [0, 1] []).2.1 (by decide) (by decide),
    (submitLoop_step_cases 1 1 [] [0, 1] []).2.2 (by decide) rfl⟩

theorem submitLoop_no_own_completion (my : Nat) :
    ∀ pre : List ReapEv,
      (∀ e ∈ pre, e ≠ ReapEv.completed my ∧ e ≠ ReapEv.fail) →
      ∀ rest tbl lg, ∃ t l,
        submitLoop my (pre ++ ReapEv.timeout :: rest) tbl lg =
          some (SubmitResult.timedOut, t, l)
  | [], _, rest, tbl, lg => ⟨tbl, lg, by simp [submitLoop]⟩
  | e :: pre, hpre, rest, tbl, lg => by
    have he := hpre e (List.mem_cons_self e pre)
    have hpre2 : ∀ x ∈ pre, x ≠ ReapEv.completed my ∧ x ≠ ReapEv.fail :=
      fun x hx => hpre x (List.mem_cons_of_mem e hx)
    cases e with
    | completed id =>
      have hne : id ≠ my := fun hh => he.1 (by rw [hh])
      by_cases hid : id ∈ tbl
      · obtain ⟨t, l, ht⟩ :=
          submitLoop_no_own_completion my pre hpre2 rest (tbl.erase id) lg
        refine ⟨t, l, ?_⟩
        rw [List.cons_append, submitLoop, if_pos hid, if_neg hne]
        exact ht
      · obtain ⟨t, l, ht⟩ := submitLoop_no_own_completion my pre hpre2 rest
          tbl (lg ++ ["got unknown urb"])
        refine ⟨t, l, ?_⟩
        rw [List.cons_append, submitLoop, if_neg hid]
        exact ht
    | timeout => exact ⟨tbl, lg, by simp [submitLoop]⟩
    | fail => exact absurd rfl he.2

/-- Claim C5: a Submit call whose reap outcomes contain no completion of its
own urb and no reap failure before the first reap timeout fails with
Timeout and performs exactly one discard (cancellation) attempt for its
urb; when that discard attempt itself fails it only adds a log line and the
result is still Timeout — the original error is never replaced. -/
theorem submit_timeout_discards_once (my : Nat) (tbl0 : List Nat)
    (pre rest : List ReapEv) (df : Bool)
    (hpre : ∀ e ∈ pre, e ≠ ReapEv.completed my ∧ e ≠ ReapEv.fail) :
    ∃ out, submit my tbl0 (pre ++ ReapEv.timeout :: rest) df = some out ∧
      out.result = SubmitResult.timedOut ∧ out.discardAttempts = 1 ∧
      (df = true → "ioctl(USBDEVFS_DISCARDURB)" ∈ out.log) := by
  obtain ⟨t, l, h⟩ := submitLoop_no_own_completion my pre hpre rest
    (insertId my tbl0) []
  refine ⟨⟨SubmitResult.timedOut, t, l ++ discardLog df, 1⟩, ?_, rfl, rfl, ?_⟩
  · unfold submit; rw [h]
  · intro hdf; subst hdf
    exact List.mem_append_right l (by simp [discardLog])

/-- Claim C5, witness: a foreign completion followed by a reap timeout, with
a failing discard whose log line appears while the result stays Timeout. -/
theorem submit_timeout_discards_once_witness :
    ∃ out, submit 0 [] ([ReapEv.completed 5] ++ ReapEv.timeout :: []) true =
        some out ∧
      out.result = SubmitResult.timedOut ∧ out.discardAttempts = 1 ∧
      (true = true → "ioctl(USBDEVFS_DISCARDURB)" ∈ out.log) :=
  submit_timeout_discards_once 0 [] [ReapEv.completed 5] [] true (by decide)

/-- Claim C7: a successful ReadControl truncates the caller's buffer to
exactly the device-reported transferred length `r` (a prefix of the
original buffer, even when that buffer was longer), a failure with errno
`EAGAIN` maps to Timeout, and a failure with any other errno maps to the
generic I/O failure. -/
theorem readControl_truncates_and_maps_errors (data : List Nat) (r e : Nat)
    (hr : r ≤ data.length) (he : e ≠ EAGAIN) :
    readControl data (CtrlOutcome.ok r) = (Except.ok (), data.take r) ∧
      (data.take r).length = r ∧
      readControl data (CtrlOutcome.err EAGAIN) =
        (Except.error TransportError.timeout, data) ∧
      readControl data (CtrlOutcome.err e) =
        (Except.error TransportError.ioFailure, data) := by
  refine ⟨?_, ?_, ?_, ?_⟩
  · simp [readControl, listResize, Nat.sub_eq_zero_of_le hr]
  · rw [List.length_take]; omega
  · simp [readControl]
  · simp [readControl, he]

/-- Claim C7, witness at a 3-byte buffer, 2 bytes transferred, errno 5. -/
theorem readControl_truncates_and_maps_errors_witness :
    readControl [1, 2, 3] (CtrlOutcome.ok 2) =
        (Except.ok (), List.take 2 [1, 2, 3]) ∧
      (List.take 2 [1, 2, 3]).length = 2 ∧
      readControl [1, 2, 3] (CtrlOutcome.err EAGAIN) =
        (Except.error TransportError.timeout, [1, 2, 3]) ∧
      readControl [1, 2, 3] (CtrlOutcome.err 5) =
        (Except.error TransportError.ioFailure, [1, 2, 3]) :=
  readControl_truncates_and_maps_errors [1, 2, 3] 2 5 (by decide) (by decide)

/-- Claim C10: every failing ReadControl call (any errno, hence both the
Timeout and the generic-failure outcomes) leaves the caller's buffer exactly
as it was — the resize happens only on the success path. -/
theorem readControl_failure_preserves_buffer (data : List Nat) (e : Nat) :
    (readControl data (CtrlOutcome.err e)).2 = data := rfl

/-- Claim C8: whatever the outcome of the underlying ioctl — success or any
errno, including the ones the IOCTL macro turns into Busy, NotFound or
generic failures — ClearHalt returns without an error and the
InterfaceToken destructor's interface release returns without an error. -/
theorem clearHalt_release_never_propagate (out : Option Nat) :
    (clearHalt out).1 = Except.ok () ∧ interfaceRelease out = Except.ok () := by
  cases out with
  | none => exact ⟨rfl, rfl⟩
  | some e => exact ⟨rfl, rfl⟩

/-- Claim C9: the transaction-type mapping is total over the four defined
endpoint transfer types, returning the matching usbdevfs tag for each, and
fails fatally (the `std::runtime_error` default branch, outside the
transport error taxonomy) on every other input value. -/
theorem transactionType_total_and_guarded :
    transactionType EndpointType_Control = some USBDEVFS_URB_TYPE_CONTROL ∧
      transactionType EndpointType_Isochronous = some USBDEVFS_URB_TYPE_ISO ∧
      transactionType EndpointType_Bulk = some USBDEVFS_URB_TYPE_BULK ∧
      transactionType EndpointType_Interrupt =
        some USBDEVFS_URB_TYPE_INTERRUPT ∧
      ∀ t, EndpointType_Interrupt < t → transactionType t = none := by
  refine ⟨rfl, rfl, rfl, rfl, ?_⟩
  intro t ht
  simp only [EndpointType_Interrupt] at ht
  rw [transactionType]
  rw [if_neg (by simp [EndpointType_Control]; omega),
    if_neg (by simp [EndpointType_Isochronous]; omega),
    if_neg (by simp [EndpointType_Bulk]; omega),
    if_neg (by simp [EndpointType_Interrupt]; omega)]

/-- Claim C9, witness: tag 7 is outside the enumeration and rejected. -/
theorem transactionType_total_and_guarded_witness :
    transactionType 7 = none :=
  transactionType_total_and_guarded.2.2.2.2 7 (by decide)

end AftlUsb
